import Mathlib

/-!
Verification of the RAGineer backend (src/backend/server.py): a shallow
embedding of the role-gated document QA service.  External collaborators
(FAISS similarity ranking, the embedding/LLM services, text extraction,
file IO) are modelled as explicit parameters; MongoDB collections are
modelled as lists of records; `datetime.now` is modelled as a strictly
increasing Nat clock and `uuid.uuid4` as a counter-backed generator.
-/

namespace RAGineer

/-- User roles (server.py line 71, RoleType). -/
inductive Role
  | admin
  | engineer
  | technician
  | viewer
deriving DecidableEq, Repr

/-- Document types (server.py line 104, DocumentBase.doc_type). -/
inductive DocType
  | sop
  | manual
  | compliance
  | other
deriving DecidableEq, Repr

/-- Errors surfaced as HTTPException, by status code (400/401/403/404),
plus internal for unhandled exceptions propagating out of a handler. -/
inductive ApiError
  | badRequest (detail : String)
  | unauthorized (detail : String)
  | forbidden (detail : String)
  | notFound (detail : String)
  | internal (detail : String)
deriving DecidableEq, Repr

/-- ROLE_PERMISSIONS table (server.py lines 64-69). -/
def rolePermissions : Role → List String
  | Role.admin => ["upload_docs", "delete_docs", "manage_users", "query_all", "view_all"]
  | Role.engineer => ["upload_docs", "query_all", "view_all"]
  | Role.technician => ["query_sops", "view_sops"]
  | Role.viewer => ["query_limited", "view_limited"]

/-- A stored user record (db.users document, server.py lines 296-304). -/
structure UserRec where
  id : String
  email : String
  name : String
  role : Role
  is_active : Bool
  created_at : Nat
deriving DecidableEq, Repr

/-- check_permission (server.py lines 175-178). -/
def check_permission (user : UserRec) (perm : String) : Except ApiError Unit :=
  if perm ∈ rolePermissions user.role then Except.ok ()
  else Except.error (ApiError.forbidden ("Permission denied: " ++ perm))

/-- One chunk stored in the FAISS index: page content plus the metadata
attached in VectorStoreManager.add_document (server.py lines 234-242). -/
structure IndexEntry where
  doc_id : String
  title : String
  doc_type : DocType
  chunk_index : Nat
  text : String
deriving DecidableEq, Repr

/-- A stored document record (db.documents document, server.py lines 446-458). -/
structure DocRecord where
  id : String
  title : String
  description : String
  doc_type : DocType
  filename : String
  uploaded_by : String
  created_at : Nat
  chunk_count : Nat
  file_size : Nat
deriving DecidableEq, Repr

/-- db.documents.find_one by id (server.py line 539): first match. -/
def findDoc (docs : List DocRecord) (i : String) : Option DocRecord :=
  docs.find? (fun d => d.id == i)

/-- The allowed doc_type set derived from the requester's role in the chat
endpoint (server.py lines 517-521); none means unrestricted. -/
def allowedDocTypes : Role → Option (List DocType)
  | Role.technician => some [DocType.sop]
  | Role.viewer => some [DocType.sop, DocType.manual]
  | Role.admin => none
  | Role.engineer => none

/-- VectorStoreManager.search (server.py lines 250-262).  The FAISS store is
modelled by the full candidate ranking for the query: the list of index
entries paired with their distance to the query, in ascending-distance order,
of which similarity_search_with_score returns the first n.  The Python test
`if doc_types:` is falsy for both None and the empty list. -/
def search (ranked : List (IndexEntry × ℚ)) (k : Nat)
    (doc_types : Option (List DocType)) : List (IndexEntry × ℚ) :=
  match doc_types with
  | none => ranked.take k
  | some dts =>
    if dts.isEmpty then ranked.take k
    else ((ranked.take (2 * k)).filter (fun r => dts.contains r.1.doc_type)).take k

/-- Relevance transform applied to a raw FAISS distance before reporting a
citation (server.py line 545). -/
def relevanceScore (d : ℚ) : ℚ := 1 / (1 + d)

/-- A citation reported to the caller (server.py lines 541-546). -/
structure Citation where
  doc_id : String
  title : String
  doc_type : DocType
  relevance_score : ℚ
deriving DecidableEq, Repr

/-- The context string built for one retrieved chunk (server.py line 548). -/
def contextEntry (e : IndexEntry) : String :=
  "[From: " ++ e.title ++ "]\n" ++ e.text

/-- The citation built from a retrieved result and the looked-up document
record (server.py lines 541-546). -/
def mkCitation (docId : String) (rec : DocRecord) (score : ℚ) : Citation :=
  { doc_id := docId
    title := rec.title
    doc_type := rec.doc_type
    relevance_score := relevanceScore score }

/-- The result loop of the chat endpoint (server.py lines 527-548): iterate
search results in order, skip the system sentinel, collect every chunk into
the context, and emit one citation per first-seen doc_id whose document
record still exists.  `seen` is the seen_docs set.  Returns
(context_parts, sources). -/
def processResults (docs : List DocRecord) :
    List (IndexEntry × ℚ) → List String → List String × List Citation
  | [], _ => ([], [])
  | (e, score) :: rest, seen =>
    if e.doc_id == "system" then processResults docs rest seen
    else
      let newCits : List Citation :=
        if seen.contains e.doc_id then []
        else
          match findDoc docs e.doc_id with
          | some rec => [mkCitation e.doc_id rec score]
          | none => []
      let seen1 := if seen.contains e.doc_id then seen else e.doc_id :: seen
      let out := processResults docs rest seen1
      (contextEntry e :: out.1, newCits ++ out.2)

/-- The degraded response synthesized when the LLM collaborator fails
(server.py line 603). -/
def degradedResponse (sources : List Citation) : String :=
  "I found relevant information in the following documents: "
    ++ String.intercalate ", " (sources.map (fun s => s.title))
    ++ ". However, I encountered an error generating a detailed response. Please try again."

/-- A stored chat session (db.chat_sessions document, server.py lines 556-563).
Timestamps are clock values. -/
structure ChatSessionRec where
  id : String
  user_id : String
  title : String
  created_at : Nat
  updated_at : Nat
  message_count : Nat
deriving DecidableEq, Repr

/-- A stored chat message (db.chat_messages document, server.py lines
567-573 and 606-613); sources is none on user messages. -/
structure ChatMessageRec where
  id : String
  session_id : String
  role : String
  content : String
  sources : Option (List Citation)
  timestamp : Nat
deriving DecidableEq, Repr

/-- The full service state: the Mongo collections, the FAISS index contents,
the uuid counter and the clock (each now() call reads the clock and the model
advances it, so successive timestamps are strictly increasing). -/
structure DB where
  users : List UserRec
  documents : List DocRecord
  chat_sessions : List ChatSessionRec
  chat_messages : List ChatMessageRec
  index : List IndexEntry
  nextId : Nat
  clock : Nat
deriving DecidableEq, Repr

/-- uuid.uuid4 modelled as a counter-backed generator. -/
def genId (n : Nat) : String := "uuid-" ++ toString n

/-- Python truthiness of the optional session_id string (server.py line 554,
`if not session_id:`): None and the empty string are both falsy. -/
def truthyId : Option String → Bool
  | none => false
  | some s => !(s == "")

/-- The session title derived from the first message (server.py line 559):
first 50 characters plus an ellipsis marker when truncated. -/
def sessionTitle (message : String) : String :=
  if message.length > 50 then message.take 50 ++ "..." else message

/-- db.chat_sessions.update_one by id (server.py lines 617-623): Mongo
update_one updates the first matching document only, setting updated_at and
incrementing message_count by 2; when nothing matches, nothing changes. -/
def updateSessionFirst (sid : String) (ts : Nat) :
    List ChatSessionRec → List ChatSessionRec
  | [] => []
  | s :: rest =>
    if s.id == sid then
      { s with updated_at := ts, message_count := s.message_count + 2 } :: rest
    else s :: updateSessionFirst sid ts rest

/-- Mongo delete_one by predicate: removes the first matching document. -/
def removeFirstSession (sid : String) : List ChatSessionRec → List ChatSessionRec
  | [] => []
  | s :: rest => if s.id == sid then rest else s :: removeFirstSession sid rest

/-- A chat request body (server.py lines 131-133). -/
structure ChatRequest where
  message : String
  session_id : Option String
deriving DecidableEq, Repr

/-- The outcome of the chat endpoint: the ChatResponse fields together with
the post-state. -/
structure ChatOutcome where
  session_id : String
  response_text : String
  sources : List Citation
  context : String
  db : DB
deriving DecidableEq, Repr

/-- The chat endpoint (server.py lines 512-634).  `ranked` is the FAISS
candidate ranking for this query (see `search`), and `llm` is the LLM
collaborator outcome: some text on success, none when send_message raises
(the except branch on lines 601-603).  The handler body itself never raises:
auth runs before it, and LLM failure is swallowed into a degraded response. -/
def chat (db : DB) (user : UserRec) (req : ChatRequest)
    (ranked : List (IndexEntry × ℚ)) (llm : Option String) : ChatOutcome :=
  let doc_types := allowedDocTypes user.role
  let results := search ranked 5 doc_types
  let pr := processResults db.documents results []
  let sources := pr.2
  let context :=
    if pr.1.isEmpty then "No relevant documents found."
    else String.intercalate "\n\n---\n\n" pr.1
  let resolved :=
    if truthyId req.session_id then (req.session_id.getD "", db)
    else
      let sid := genId db.nextId
      let s : ChatSessionRec :=
        { id := sid
          user_id := user.id
          title := sessionTitle req.message
          created_at := db.clock
          updated_at := db.clock + 1
          message_count := 0 }
      (sid, { db with
              chat_sessions := db.chat_sessions ++ [s]
              nextId := db.nextId + 1
              clock := db.clock + 2 })
  let session_id := resolved.1
  let db1 := resolved.2
  let umsg : ChatMessageRec :=
    { id := genId db1.nextId
      session_id := session_id
      role := "user"
      content := req.message
      sources := none
      timestamp := db1.clock }
  let db2 := { db1 with
               chat_messages := db1.chat_messages ++ [umsg]
               nextId := db1.nextId + 1
               clock := db1.clock + 1 }
  let response_text :=
    match llm with
    | some t => t
    | none => degradedResponse sources
  let db3 := { db2 with nextId := db2.nextId + 1 }
  let amsg : ChatMessageRec :=
    { id := genId db3.nextId
      session_id := session_id
      role := "assistant"
      content := response_text
      sources := some sources
      timestamp := db3.clock }
  let db4 := { db3 with
               chat_messages := db3.chat_messages ++ [amsg]
               nextId := db3.nextId + 1
               clock := db3.clock + 1 }
  let db5 := { db4 with
               chat_sessions := updateSessionFirst session_id db4.clock db4.chat_sessions
               clock := db4.clock + 1 }
  { session_id := session_id
    response_text := response_text
    sources := sources
    context := context
    db := db5 }

/-- Stable insertion of a message into a timestamp-ascending list. -/
def insertByTs (m : ChatMessageRec) : List ChatMessageRec → List ChatMessageRec
  | [] => [m]
  | x :: xs =>
    if m.timestamp ≤ x.timestamp then m :: x :: xs else x :: insertByTs m xs

/-- Mongo sort by timestamp ascending (server.py line 649). -/
def sortByTs : List ChatMessageRec → List ChatMessageRec
  | [] => []
  | x :: xs => insertByTs x (sortByTs xs)

/-- get_session_messages (server.py lines 636-651): find_one on id plus
owner, 404 when absent, else all messages of the session sorted by
timestamp ascending. -/
def get_session_messages (db : DB) (user : UserRec) (sid : String) :
    Except ApiError (List ChatMessageRec) :=
  match db.chat_sessions.find? (fun s => s.id == sid && s.user_id == user.id) with
  | none => Except.error (ApiError.notFound "Session not found")
  | some _ =>
    Except.ok (sortByTs (db.chat_messages.filter (fun m => m.session_id == sid)))

/-- delete_session (server.py lines 653-665): find_one on id plus owner,
404 when absent, else delete_many on the messages and delete_one on the
session. -/
def delete_session (db : DB) (user : UserRec) (sid : String) :
    Except ApiError DB :=
  match db.chat_sessions.find? (fun s => s.id == sid && s.user_id == user.id) with
  | none => Except.error (ApiError.notFound "Session not found")
  | some _ =>
    Except.ok { db with
      chat_messages := db.chat_messages.filter (fun m => !(m.session_id == sid))
      chat_sessions := removeFirstSession sid db.chat_sessions }

/-- Outcome of the text-extraction collaborator for the uploaded file
(server.py lines 419-428): failure models an exception from the pdf/docx/txt
extractor, success carries the extracted text. -/
inductive ExtractOutcome
  | failure
  | success (text : String)
deriving DecidableEq, Repr

/-- The inputs of one upload request: the form fields, the file name with its
lowercased suffix, the byte count, and the outcomes of the external effects
(extraction, FAISS save_local, raw-file write). -/
structure UploadArgs where
  filename : String
  ext : String
  content_size : Nat
  title : String
  description : String
  doc_type : DocType
  extract : ExtractOutcome
  saveOk : Bool
  fileWriteOk : Bool
deriving DecidableEq, Repr

/-- Python str.strip() whitespace characters. -/
def pyWhitespace (c : Char) : Bool :=
  c == ' ' || c == '\t' || c == '\n' || c == '\r' || c.toNat == 11 || c.toNat == 12

/-- Python `not text.strip()` (server.py line 430): true when every character
of the text is whitespace. -/
def strippedEmpty (s : String) : Bool :=
  s.data.all pyWhitespace

/-- Path(...).stem, used for the default document title (server.py line 435):
the filename without its final suffix; a name with no dot, a leading-dot-only
name, or a trailing dot has no suffix to strip. -/
def stem (s : String) : String :=
  let rev := s.data.reverse
  let afterDot := rev.takeWhile (fun c => !(c == '.'))
  if afterDot.length == s.data.length then s
  else if afterDot.length == 0 then s
  else if afterDot.length + 1 == s.data.length then s
  else String.mk ((rev.drop (afterDot.length + 1)).reverse)

/-- The index entries built for the chunks of one document, pairing chunk i
with metadata carrying chunk_index i (server.py lines 234-242 and the
add_texts pairing on line 245). -/
def mkEntries (doc_id title : String) (doc_type : DocType) :
    Nat → List String → List IndexEntry
  | _, [] => []
  | i, t :: ts =>
    { doc_id := doc_id, title := title, doc_type := doc_type,
      chunk_index := i, text := t } :: mkEntries doc_id title doc_type (i + 1) ts

/-- VectorStoreManager.add_document (server.py lines 232-248): split the
content into chunks via the text splitter `split`, append each chunk with its
metadata to the in-memory store, then save_local.  When the durable save
raises (saveOk false) the exception propagates, with the in-memory store
already mutated; the pair returned is (result, post-state). -/
def add_document (db : DB) (split : String → List String) (doc_id : String)
    (title : String) (content : String) (doc_type : DocType) (saveOk : Bool) :
    Except ApiError Nat × DB :=
  let chunks := split content
  let entries := mkEntries doc_id title doc_type 0 chunks
  let db1 := { db with index := db.index ++ entries }
  if saveOk then (Except.ok chunks.length, db1)
  else (Except.error (ApiError.internal "FAISS save failed"), db1)

/-- upload_document (server.py lines 398-462).  Steps in source order:
permission check, extension check, extraction (failure → 400 before any
index mutation), empty-text check (400), add to the vector store (an
exception there propagates before the record insert), raw-file write, then
the document record insert.  Returns (result, post-state). -/
def upload_document (db : DB) (user : UserRec) (args : UploadArgs)
    (split : String → List String) : Except ApiError DocRecord × DB :=
  match check_permission user "upload_docs" with
  | Except.error e => (Except.error e, db)
  | Except.ok _ =>
    if !([".pdf", ".docx", ".txt"].contains args.ext) then
      (Except.error (ApiError.badRequest "File type not supported"), db)
    else
      match args.extract with
      | ExtractOutcome.failure =>
        (Except.error (ApiError.badRequest "Could not extract text from file"), db)
      | ExtractOutcome.success text =>
        if strippedEmpty text then
          (Except.error (ApiError.badRequest "No text content found in file"), db)
        else
          let doc_id := genId db.nextId
          let db0 := { db with nextId := db.nextId + 1 }
          let doc_title := if args.title == "" then stem args.filename else args.title
          match add_document db0 split doc_id doc_title text args.doc_type args.saveOk with
          | (Except.error e, db1) => (Except.error e, db1)
          | (Except.ok chunk_count, db1) =>
            if !args.fileWriteOk then
              (Except.error (ApiError.internal "file write failed"), db1)
            else
              let rec0 : DocRecord :=
                { id := doc_id
                  title := doc_title
                  description := args.description
                  doc_type := args.doc_type
                  filename := args.filename
                  uploaded_by := user.id
                  created_at := db1.clock
                  chunk_count := chunk_count
                  file_size := args.content_size }
              (Except.ok rec0,
               { db1 with documents := db1.documents ++ [rec0], clock := db1.clock + 1 })

/-- The validated register body (UserCreate, server.py lines 73-79). -/
structure UserCreate where
  email : String
  name : String
  role : Role
  password : String
deriving DecidableEq, Repr

/-- Pydantic validation of the register body: the role field defaults to
viewer when omitted (UserBase, server.py line 76). -/
def parseUserCreate (email name : String) (role : Option Role) (password : String) :
    UserCreate :=
  { email := email, name := name, role := role.getD Role.viewer, password := password }

/-- The part of the TokenResponse relevant here (server.py lines 96-99). -/
structure TokenOut where
  user_id : String
  email : String
  role : Role
deriving DecidableEq, Repr

/-- The register endpoint (server.py lines 287-320).  It has no
authentication dependency: the handler takes only the request body, so any
caller may register with any role.  Rejects only a duplicate email, then
stores the user with exactly the requested role. -/
def register (db : DB) (req : UserCreate) : Except ApiError (TokenOut × DB) :=
  match db.users.find? (fun u => u.email == req.email) with
  | some _ => Except.error (ApiError.badRequest "Email already registered")
  | none =>
    let uid := genId db.nextId
    let u : UserRec :=
      { id := uid
        email := req.email
        name := req.name
        role := req.role
        is_active := true
        created_at := db.clock }
    Except.ok
      ({ user_id := uid, email := req.email, role := req.role },
       { db with users := db.users ++ [u], nextId := db.nextId + 1, clock := db.clock + 1 })

/-! Concrete demonstration values used to instantiate the theorems. -/

/-- A fresh service state. -/
def emptyDB : DB :=
  { users := [], documents := [], chat_sessions := [], chat_messages := [],
    index := [], nextId := 0, clock := 0 }

/-- A demo SOP chunk. -/
def demoSopEntry : IndexEntry :=
  { doc_id := "doc-sop", title := "Pump SOP", doc_type := DocType.sop,
    chunk_index := 0, text := "Step 1: wear gloves." }

/-- A second chunk of the same SOP document. -/
def demoSopEntry2 : IndexEntry :=
  { doc_id := "doc-sop", title := "Pump SOP", doc_type := DocType.sop,
    chunk_index := 1, text := "Step 2: open the valve." }

/-- A demo manual chunk. -/
def demoManualEntry : IndexEntry :=
  { doc_id := "doc-man", title := "Pump Manual", doc_type := DocType.manual,
    chunk_index := 0, text := "Impeller clearances." }

/-- The placeholder entry created with a fresh index (server.py lines 215-218). -/
def demoSystemEntry : IndexEntry :=
  { doc_id := "system", title := "System", doc_type := DocType.other,
    chunk_index := 0, text := "RAGineer - Industrial Engineering QA System initialized" }

/-- The document record behind demoSopEntry. -/
def demoSopDoc : DocRecord :=
  { id := "doc-sop", title := "Pump SOP", description := "", doc_type := DocType.sop,
    filename := "pump.txt", uploaded_by := "user-eng", created_at := 3,
    chunk_count := 2, file_size := 40 }

/-- The document record behind demoManualEntry. -/
def demoManualDoc : DocRecord :=
  { id := "doc-man", title := "Pump Manual", description := "", doc_type := DocType.manual,
    filename := "manual.pdf", uploaded_by := "user-eng", created_at := 4,
    chunk_count := 1, file_size := 90 }

/-- A demo technician user. -/
def demoTech : UserRec :=
  { id := "user-tech", email := "tech@example.com", name := "Tech",
    role := Role.technician, is_active := true, created_at := 1 }

/-- A demo engineer user. -/
def demoEngineer : UserRec :=
  { id := "user-eng", email := "eng@example.com", name := "Eng",
    role := Role.engineer, is_active := true, created_at := 2 }

/-- A demo service state with two indexed documents. -/
def demoDB : DB :=
  { users := [demoTech, demoEngineer]
    documents := [demoSopDoc, demoManualDoc]
    chat_sessions := []
    chat_messages := []
    index := [demoSystemEntry, demoSopEntry, demoSopEntry2, demoManualEntry]
    nextId := 0
    clock := 10 }

/-- A demo FAISS ranking for a query, ascending distance. -/
def demoRanked : List (IndexEntry × ℚ) :=
  [(demoSystemEntry, 1/2), (demoSopEntry, 1), (demoManualEntry, 2), (demoSopEntry2, 3)]

/-- A demo upload request whose external effects all succeed. -/
def demoUploadArgs : UploadArgs :=
  { filename := "doc.txt", ext := ".txt", content_size := 9, title := "Doc",
    description := "", doc_type := DocType.sop,
    extract := ExtractOutcome.success "hello you", saveOk := true, fileWriteOk := true }

/-- A demo chunker that yields one chunk per input. -/
def demoSplit (s : String) : List String := [s]

/-- The citation list the chat endpoint computes for a request, written out
as a standalone abbreviation of the corresponding lets in `chat`. -/
def chatSources (db : DB) (user : UserRec) (ranked : List (IndexEntry × ℚ)) :
    List Citation :=
  (processResults db.documents (search ranked 5 (allowedDocTypes user.role)) []).2

/-- The context parts the chat endpoint computes for a request. -/
def chatParts (db : DB) (user : UserRec) (ranked : List (IndexEntry × ℚ)) :
    List String :=
  (processResults db.documents (search ranked 5 (allowedDocTypes user.role)) []).1

/-- The assistant text: the LLM reply on success, the degraded fallback on
failure. -/
def chatText (llm : Option String) (sources : List Citation) : String :=
  match llm with
  | some t => t
  | none => degradedResponse sources

/-- A first exchange starting a fresh session (session_id absent). -/
def chatFirst (db : DB) (user : UserRec) (m1 : String)
    (r1 : List (IndexEntry × ℚ)) (l1 : Option String) : ChatOutcome :=
  chat db user { message := m1, session_id := none } r1 l1

/-- A second exchange reusing the session id returned by the first. -/
def chatSecond (db : DB) (user : UserRec) (m1 m2 : String)
    (r1 r2 : List (IndexEntry × ℚ)) (l1 l2 : Option String) : ChatOutcome :=
  chat (chatFirst db user m1 r1 l1).db user
    { message := m2, session_id := some (chatFirst db user m1 r1 l1).session_id } r2 l2

/-- A demo chat session owned by demoTech. -/
def demoSession : ChatSessionRec :=
  { id := "sess-1", user_id := "user-tech", title := "hello",
    created_at := 5, updated_at := 8, message_count := 2 }

/-- A demo message stored in demoSession. -/
def demoSessionMsg : ChatMessageRec :=
  { id := "m1", session_id := "sess-1", role := "user", content := "hello",
    sources := none, timestamp := 6 }

/-- demoDB extended with one session and one message. -/
def demoSessionDB : DB :=
  { users := [demoTech, demoEngineer]
    documents := [demoSopDoc, demoManualDoc]
    chat_sessions := [demoSession]
    chat_messages := [demoSessionMsg]
    index := [demoSystemEntry, demoSopEntry, demoSopEntry2, demoManualEntry]
    nextId := 0
    clock := 10 }

/-! Helper lemmas. -/

theorem search_eq_of_ne_nil (ranked : List (IndexEntry × ℚ)) (k : Nat)
    (dts : List DocType) (h : dts ≠ []) :
    search ranked k (some dts)
      = ((ranked.take (2 * k)).filter (fun r => dts.contains r.1.doc_type)).take k := by
  cases dts with
  | nil => exact absurd rfl h
  | cons a l => rfl

theorem search_length_le (ranked : List (IndexEntry × ℚ)) (k : Nat)
    (doc_types : Option (List DocType)) :
    (search ranked k doc_types).length ≤ k := by
  cases doc_types with
  | none => simp [search, List.length_take]
  | some dts =>
    by_cases h : dts.isEmpty <;> simp [search, h, List.length_take]

theorem search_mem_allowed (ranked : List (IndexEntry × ℚ)) (k : Nat)
    (dts : List DocType) (h : dts ≠ []) :
    ∀ r ∈ search ranked k (some dts), r.1.doc_type ∈ dts := by
  intro r hr
  rw [search_eq_of_ne_nil ranked k dts h] at hr
  have h1 := List.mem_of_mem_take hr
  have h2 := List.of_mem_filter h1
  simpa using h2

theorem search_sublist (ranked : List (IndexEntry × ℚ)) (k : Nat)
    (dts : List DocType) (h : dts ≠ []) :
    (search ranked k (some dts)).Sublist (ranked.take (2 * k)) := by
  rw [search_eq_of_ne_nil ranked k dts h]
  exact ((List.take_sublist _ _).trans (List.filter_sublist _))

theorem processResults_fst (docs : List DocRecord) :
    ∀ (results : List (IndexEntry × ℚ)) (seen : List String),
      (processResults docs results seen).1
        = (results.filter (fun r => !(r.1.doc_id == "system"))).map
            (fun r => contextEntry r.1) := by
  intro results
  induction results with
  | nil => intro seen; simp [processResults]
  | cons r rest ih =>
    intro seen
    obtain ⟨e, score⟩ := r
    by_cases hs : e.doc_id == "system" <;>
      simp [processResults, hs, ih]

theorem processResults_provenance (docs : List DocRecord) :
    ∀ (results : List (IndexEntry × ℚ)) (seen : List String) (c : Citation),
      c ∈ (processResults docs results seen).2 →
      ∃ r ∈ results, ¬ r.1.doc_id = "system" ∧ ∃ rec, findDoc docs r.1.doc_id = some rec
        ∧ c = mkCitation r.1.doc_id rec r.2 := by
  intro results
  induction results with
  | nil => intro seen c hc; simp [processResults] at hc
  | cons r rest ih =>
    intro seen c hc
    obtain ⟨e, score⟩ := r
    by_cases hs : e.doc_id == "system"
    · rw [show processResults docs ((e, score) :: rest) seen
          = processResults docs rest seen by simp [processResults, hs]] at hc
      obtain ⟨r1, hr1, hns, rec, hrec, hcrec⟩ := ih seen c hc
      exact ⟨r1, List.mem_cons_of_mem _ hr1, hns, rec, hrec, hcrec⟩
    · simp only [processResults, hs, Bool.false_eq_true, if_false] at hc
      by_cases hseen : seen.contains e.doc_id = true
      · rw [if_pos hseen, if_pos hseen] at hc
        rw [List.nil_append] at hc
        obtain ⟨r1, hr1, hns, rec, hrec, hcrec⟩ := ih seen c hc
        exact ⟨r1, List.mem_cons_of_mem _ hr1, hns, rec, hrec, hcrec⟩
      · rw [if_neg hseen, if_neg hseen] at hc
        rcases hfd : findDoc docs e.doc_id with _ | rec <;> rw [hfd] at hc
        · rw [List.nil_append] at hc
          obtain ⟨r1, hr1, hns, rec, hrec, hcrec⟩ := ih _ c hc
          exact ⟨r1, List.mem_cons_of_mem _ hr1, hns, rec, hrec, hcrec⟩
        · rcases List.mem_append.mp hc with hnew | hrest
          · exact ⟨(e, score), List.mem_cons_self _ _, by simpa using hs, rec, hfd,
              List.mem_singleton.mp hnew⟩
          · obtain ⟨r1, hr1, hns1, rec1, hrec1, hcrec1⟩ := ih _ c hrest
            exact ⟨r1, List.mem_cons_of_mem _ hr1, hns1, rec1, hrec1, hcrec1⟩

theorem processResults_citations_nodup (docs : List DocRecord) :
    ∀ (results : List (IndexEntry × ℚ)) (seen : List String),
      ((processResults docs results seen).2.map (fun c => c.doc_id)).Nodup
        ∧ ∀ c ∈ (processResults docs results seen).2, ¬ c.doc_id ∈ seen := by
  intro results
  induction results with
  | nil => intro seen; simp [processResults]
  | cons r rest ih =>
    intro seen
    obtain ⟨e, score⟩ := r
    by_cases hs : e.doc_id == "system"
    · rw [show processResults docs ((e, score) :: rest) seen
          = processResults docs rest seen by simp [processResults, hs]]
      exact ih seen
    · simp only [processResults, hs, Bool.false_eq_true, if_false]
      by_cases hseen : seen.contains e.doc_id = true
      · rw [if_pos hseen, if_pos hseen, List.nil_append]
        exact ih seen
      · rw [if_neg hseen, if_neg hseen]
        have hnotmem : ¬ e.doc_id ∈ seen := by
          intro hmem
          exact hseen (List.elem_eq_true_of_mem hmem)
        obtain ⟨ihnd, ihseen⟩ := ih (e.doc_id :: seen)
        rcases hfd : findDoc docs e.doc_id with _ | rec
        · rw [List.nil_append]
          constructor
          · exact ihnd
          · intro c hc
            exact fun hmem => ihseen c hc (List.mem_cons_of_mem _ hmem)
        · constructor
          · rw [List.map_append]
            simp only [List.map, mkCitation, List.singleton_append, List.nodup_cons]
            constructor
            · intro hmem
              obtain ⟨c, hc, hcd⟩ := List.mem_map.mp hmem
              exact ihseen c hc (hcd ▸ List.mem_cons_self _ _)
            · exact ihnd
          · intro c hc
            rcases List.mem_append.mp hc with hnew | hrest2
            · rw [List.mem_singleton.mp hnew]
              exact hnotmem
            · exact fun hmem => ihseen c hrest2 (List.mem_cons_of_mem _ hmem)

theorem processResults_exists_citation (docs : List DocRecord) (d : String) :
    ∀ (results : List (IndexEntry × ℚ)) (seen : List String),
      ¬ d ∈ seen → ¬ d = "system" → (∃ r ∈ results, r.1.doc_id = d) →
      (findDoc docs d).isSome →
      ∃ c ∈ (processResults docs results seen).2, c.doc_id = d := by
  intro results
  induction results with
  | nil => intro seen _ _ hex _; simp at hex
  | cons r rest ih =>
    intro seen hseen hd hex hfd
    obtain ⟨e, score⟩ := r
    by_cases hs : e.doc_id == "system"
    · have he : e.doc_id = "system" := by simpa using hs
      rw [show processResults docs ((e, score) :: rest) seen
          = processResults docs rest seen by simp [processResults, hs]]
      apply ih seen hseen hd _ hfd
      rcases hex with ⟨r1, hr1, hdid⟩
      rcases List.mem_cons.mp hr1 with rfl | hr1rest
      · exact (hd (hdid.symm.trans he)).elim
      · exact ⟨r1, hr1rest, hdid⟩
    · simp only [processResults, hs, Bool.false_eq_true, if_false]
      by_cases hed : e.doc_id = d
      · have hcont : ¬ seen.contains e.doc_id = true := by
          intro hc
          exact hseen (hed ▸ List.mem_of_elem_eq_true hc)
        rw [if_neg hcont, if_neg hcont]
        rcases hfds : findDoc docs e.doc_id with _ | rec
        · rw [hed] at hfds
          rw [hfds] at hfd
          simp at hfd
        · simp only [hfds]
          exact ⟨mkCitation e.doc_id rec score, List.mem_append_left _ (List.mem_singleton_self _), hed⟩
      · have hrest : ∃ r ∈ rest, r.1.doc_id = d := by
          rcases hex with ⟨r1, hr1, hdid⟩
          rcases List.mem_cons.mp hr1 with rfl | hr1rest
          · exact absurd hdid hed
          · exact ⟨r1, hr1rest, hdid⟩
        by_cases hcont : seen.contains e.doc_id = true
        · rw [if_pos hcont, if_pos hcont, List.nil_append]
          exact ih seen hseen hd hrest hfd
        · rw [if_neg hcont, if_neg hcont]
          have hseen1 : ¬ d ∈ (e.doc_id :: seen) := by
            intro hmem
            rcases List.mem_cons.mp hmem with rfl | hmem2
            · exact hed rfl
            · exact hseen hmem2
          obtain ⟨c, hc, hcd⟩ := ih (e.doc_id :: seen) hseen1 hd hrest hfd
          exact ⟨c, List.mem_append_right _ hc, hcd⟩

theorem citations_countP_le_one (docs : List DocRecord)
    (results : List (IndexEntry × ℚ)) (seen : List String) (d : String) :
    ((processResults docs results seen).2.countP (fun c => c.doc_id == d)) ≤ 1 := by
  have hnd := (processResults_citations_nodup docs results seen).1
  have : ((processResults docs results seen).2.countP (fun c => c.doc_id == d))
      = (((processResults docs results seen).2.map (fun c => c.doc_id)).count d) := by
    rw [List.count, List.countP_map]
    rfl
  rw [this]
  exact List.nodup_iff_count_le_one.mp hnd d

/-! Claim theorems. -/

/-- C3: in the chat result loop, entries whose doc_id is the system sentinel
contribute neither context nor citation; every citation refers to a
non-sentinel doc_id appearing in the results whose document record still
exists (so a citation is omitted when the record was deleted); each doc_id
yields at most one citation; and each remaining distinct doc_id with a live
record yields exactly one citation, even when the document contributed
several matching chunks. -/
theorem C3_sentinel_dedup_omission (docs : List DocRecord)
    (results : List (IndexEntry × ℚ)) :
    (processResults docs results []).1
        = (results.filter (fun r => !(r.1.doc_id == "system"))).map (fun r => contextEntry r.1)
    ∧ (∀ c ∈ (processResults docs results []).2,
        ¬ c.doc_id = "system" ∧ (findDoc docs c.doc_id).isSome
          ∧ ∃ r ∈ results, r.1.doc_id = c.doc_id)
    ∧ (∀ d : String,
        ((processResults docs results []).2.countP (fun c => c.doc_id == d)) ≤ 1)
    ∧ (∀ d : String, ¬ d = "system" → (∃ r ∈ results, r.1.doc_id = d) →
        (findDoc docs d).isSome →
        ((processResults docs results []).2.countP (fun c => c.doc_id == d)) = 1) := by
  refine ⟨processResults_fst docs results [], ?_, ?_, ?_⟩
  · intro c hc
    obtain ⟨r, hr, hns, rec, hrec, hcrec⟩ := processResults_provenance docs results [] c hc
    subst hcrec
    exact ⟨hns, by rw [show (mkCitation r.1.doc_id rec r.2).doc_id = r.1.doc_id from rfl, hrec]; rfl,
           r, hr, rfl⟩
  · intro d
    exact citations_countP_le_one docs results [] d
  · intro d hd hex hfd
    have hle := citations_countP_le_one docs results [] d
    have hge : 0 < ((processResults docs results []).2.countP (fun c => c.doc_id == d)) := by
      rw [List.countP_pos_iff]
      obtain ⟨c, hc, hcd⟩ := processResults_exists_citation docs d results []
        (List.not_mem_nil d) hd hex hfd
      exact ⟨c, hc, by simp [hcd]⟩
    omega

/-- Witness for C3 at concrete inputs: the SOP document contributes two
chunks to demoRanked yet yields exactly one citation. -/
theorem C3_witness :
    (¬ "doc-sop" = "system")
    ∧ ((processResults [demoSopDoc, demoManualDoc] demoRanked []).2.countP
        (fun c => c.doc_id == "doc-sop")) = 1 :=
  ⟨by decide,
   (C3_sentinel_dedup_omission [demoSopDoc, demoManualDoc] demoRanked).2.2.2 "doc-sop"
     (by decide) ⟨(demoSopEntry, (1 : ℚ)), by simp [demoRanked], rfl⟩ (by decide)⟩

/-- C7: with a non-empty allowed_doc_types list, search takes the 2k nearest
candidates, keeps in order only those whose doc_type is allowed, truncates to
k (so at most k results, all of allowed types, order preserved), and fewer
than k results are possible when too few candidates match. -/
theorem C7_overfetch_filter_truncate (ranked : List (IndexEntry × ℚ)) (k : Nat)
    (dts : List DocType) (hne : dts ≠ []) :
    search ranked k (some dts)
      = ((ranked.take (2 * k)).filter (fun r => dts.contains r.1.doc_type)).take k
    ∧ (search ranked k (some dts)).length ≤ k
    ∧ (∀ r ∈ search ranked k (some dts), r.1.doc_type ∈ dts)
    ∧ (search ranked k (some dts)).Sublist (ranked.take (2 * k))
    ∧ ∃ ranked2 : List (IndexEntry × ℚ), 2 ≤ ranked2.length
        ∧ (search ranked2 1 (some [DocType.sop])).length < 1 := by
  refine ⟨search_eq_of_ne_nil ranked k dts hne, search_length_le ranked k (some dts),
    search_mem_allowed ranked k dts hne, search_sublist ranked k dts hne,
    [(demoManualEntry, 1), (demoManualEntry, 2)], by simp, ?_⟩
  have : search [(demoManualEntry, (1 : ℚ)), (demoManualEntry, 2)] 1 (some [DocType.sop])
      = [] := rfl
  simp [this]

/-- Witness for C7 at concrete inputs. -/
theorem C7_witness :
    ([DocType.sop] : List DocType) ≠ []
    ∧ (search demoRanked 5 (some [DocType.sop])).length ≤ 5 :=
  ⟨by decide, (C7_overfetch_filter_truncate demoRanked 5 [DocType.sop] (by decide)).2.1⟩

/-- C8: for d ≥ 0 the reported relevance score 1/(1+d) lies in (0, 1] and is
strictly larger for strictly smaller distance, and every citation carries the
transform of the raw distance of the chunk it was created from. -/
theorem C8_relevance_score (d : ℚ) (hd : 0 ≤ d) :
    0 < relevanceScore d
    ∧ relevanceScore d ≤ 1
    ∧ (∀ d2 : ℚ, d < d2 → relevanceScore d2 < relevanceScore d)
    ∧ (∀ (docs : List DocRecord) (results : List (IndexEntry × ℚ)) (c : Citation),
        c ∈ (processResults docs results []).2 →
        ∃ r ∈ results, c.relevance_score = relevanceScore r.2) := by
  refine ⟨?_, ?_, ?_, ?_⟩
  · rw [relevanceScore]
    exact div_pos one_pos (by linarith)
  · rw [relevanceScore, div_le_one (by linarith)]
    linarith
  · intro d2 hlt
    rw [relevanceScore, relevanceScore]
    exact one_div_lt_one_div_of_lt (by linarith) (by linarith)
  · intro docs results c hc
    obtain ⟨r, hr, _, rec, _, hcrec⟩ := processResults_provenance docs results [] c hc
    exact ⟨r, hr, by simp [hcrec, mkCitation]⟩

/-- Witness for C8 at distance 0. -/
theorem C8_witness : (0 : ℚ) ≤ 0 ∧ 0 < relevanceScore 0 :=
  ⟨le_refl 0, (C8_relevance_score 0 (le_refl 0)).1⟩

/-- C9: the register endpoint takes only the request body (no authentication
or authorization dependency), creates the user with exactly the requested
role — admin included — and the role defaults to viewer when the request
omits it. -/
theorem C9_register_any_role (db : DB) (email name password : String) (r : Option Role)
    (hfresh : ∀ u ∈ db.users, ¬ u.email = email) :
    (∃ tok db2, register db (parseUserCreate email name r password) = Except.ok (tok, db2)
      ∧ tok.role = r.getD Role.viewer
      ∧ db2.users = db.users ++
          [{ id := genId db.nextId, email := email, name := name,
             role := r.getD Role.viewer, is_active := true, created_at := db.clock }])
    ∧ (parseUserCreate email name none password).role = Role.viewer := by
  have hfind : db.users.find? (fun u => u.email == email) = none := by
    rw [List.find?_eq_none]
    intro u hu
    simpa using hfresh u hu
  constructor
  · refine ⟨{ user_id := genId db.nextId, email := email, role := r.getD Role.viewer },
      { users := db.users ++
          [{ id := genId db.nextId, email := email, name := name,
             role := r.getD Role.viewer, is_active := true, created_at := db.clock }]
        documents := db.documents
        chat_sessions := db.chat_sessions
        chat_messages := db.chat_messages
        index := db.index
        nextId := db.nextId + 1
        clock := db.clock + 1 }, ?_, rfl, rfl⟩
    dsimp only [register, parseUserCreate]
    rw [hfind]
  · rfl

/-- Witness for C9: an unauthenticated caller registering with role admin on a
fresh state obtains an admin account. -/
theorem C9_witness :
    (∀ u ∈ emptyDB.users, ¬ u.email = "root@example.com")
    ∧ ∃ tok db2,
        register emptyDB (parseUserCreate "root@example.com" "Root" (some Role.admin) "pw")
          = Except.ok (tok, db2) ∧ tok.role = Role.admin := by
  have h := C9_register_any_role emptyDB "root@example.com" "Root" "pw" (some Role.admin)
    (by simp [emptyDB])
  obtain ⟨⟨tok, db2, h1, h2, _⟩, _⟩ := h
  exact ⟨by simp [emptyDB], tok, db2, h1, h2⟩

theorem chat_unfold_existing (db : DB) (user : UserRec) (req : ChatRequest)
    (ranked : List (IndexEntry × ℚ)) (llm : Option String)
    (ht : truthyId req.session_id = true) :
    chat db user req ranked llm =
      { session_id := req.session_id.getD ""
        response_text := chatText llm (chatSources db user ranked)
        sources := chatSources db user ranked
        context :=
          if (chatParts db user ranked).isEmpty then "No relevant documents found."
          else String.intercalate "\n\n---\n\n" (chatParts db user ranked)
        db := { users := db.users
                documents := db.documents
                chat_sessions :=
                  updateSessionFirst (req.session_id.getD "") (db.clock + 2) db.chat_sessions
                chat_messages := db.chat_messages ++
                  [{ id := genId db.nextId
                     session_id := req.session_id.getD ""
                     role := "user"
                     content := req.message
                     sources := none
                     timestamp := db.clock },
                   { id := genId (db.nextId + 2)
                     session_id := req.session_id.getD ""
                     role := "assistant"
                     content := chatText llm (chatSources db user ranked)
                     sources := some (chatSources db user ranked)
                     timestamp := db.clock + 1 }]
                index := db.index
                nextId := db.nextId + 3
                clock := db.clock + 3 } } := by
  simp only [chat, ht, if_true, chatSources, chatParts, chatText]
  cases llm <;> simp [List.append_assoc]

theorem chat_unfold_fresh (db : DB) (user : UserRec) (req : ChatRequest)
    (ranked : List (IndexEntry × ℚ)) (llm : Option String)
    (ht : truthyId req.session_id = false) :
    chat db user req ranked llm =
      { session_id := genId db.nextId
        response_text := chatText llm (chatSources db user ranked)
        sources := chatSources db user ranked
        context :=
          if (chatParts db user ranked).isEmpty then "No relevant documents found."
          else String.intercalate "\n\n---\n\n" (chatParts db user ranked)
        db := { users := db.users
                documents := db.documents
                chat_sessions :=
                  updateSessionFirst (genId db.nextId) (db.clock + 4)
                    (db.chat_sessions ++
                      [{ id := genId db.nextId
                         user_id := user.id
                         title := sessionTitle req.message
                         created_at := db.clock
                         updated_at := db.clock + 1
                         message_count := 0 }])
                chat_messages := db.chat_messages ++
                  [{ id := genId (db.nextId + 1)
                     session_id := genId db.nextId
                     role := "user"
                     content := req.message
                     sources := none
                     timestamp := db.clock + 2 },
                   { id := genId (db.nextId + 3)
                     session_id := genId db.nextId
                     role := "assistant"
                     content := chatText llm (chatSources db user ranked)
                     sources := some (chatSources db user ranked)
                     timestamp := db.clock + 3 }]
                index := db.index
                nextId := db.nextId + 4
                clock := db.clock + 5 } } := by
  simp only [chat, ht, if_false, chatSources, chatParts, chatText]
  cases llm <;> simp [List.append_assoc]

/-- C1: the doc_types visible to a chat search are fixed by the requester
role.  Assuming the upload-established consistency between chunk metadata and
document records, a technician request retrieves and cites only sop
documents, a viewer request only sop or manual, and admin or engineer
requests search the index unrestricted. -/
theorem C1_role_filtering (db : DB) (user : UserRec) (req : ChatRequest)
    (ranked : List (IndexEntry × ℚ)) (llm : Option String)
    (hcons : ∀ r ∈ ranked, ∀ rec, findDoc db.documents r.1.doc_id = some rec →
        rec.doc_type = r.1.doc_type) :
    (user.role = Role.technician →
      (∀ r ∈ search ranked 5 (allowedDocTypes user.role), r.1.doc_type = DocType.sop)
      ∧ (∀ c ∈ (chat db user req ranked llm).sources, c.doc_type = DocType.sop))
    ∧ (user.role = Role.viewer →
      (∀ r ∈ search ranked 5 (allowedDocTypes user.role),
        r.1.doc_type = DocType.sop ∨ r.1.doc_type = DocType.manual)
      ∧ (∀ c ∈ (chat db user req ranked llm).sources,
        c.doc_type = DocType.sop ∨ c.doc_type = DocType.manual))
    ∧ ((user.role = Role.admin ∨ user.role = Role.engineer) →
      search ranked 5 (allowedDocTypes user.role) = ranked.take 5) := by
  have key : ∀ dts : List DocType, allowedDocTypes user.role = some dts → dts ≠ [] →
      ∀ c ∈ (chat db user req ranked llm).sources, c.doc_type ∈ dts := by
    intro dts hrole hne c hc
    rw [show (chat db user req ranked llm).sources = chatSources db user ranked from rfl] at hc
    rw [chatSources, hrole] at hc
    obtain ⟨r, hr, _, rec, hrec, hcrec⟩ := processResults_provenance db.documents _ [] c hc
    have hrm : r ∈ ranked :=
      List.mem_of_mem_take ((search_sublist ranked 5 dts hne).subset hr)
    have htype := hcons r hrm rec hrec
    have hallow := search_mem_allowed ranked 5 dts hne r hr
    subst hcrec
    simpa [mkCitation, htype] using hallow
  refine ⟨?_, ?_, ?_⟩
  · intro hrole
    have hdts : allowedDocTypes user.role = some [DocType.sop] := by rw [hrole]; rfl
    constructor
    · intro r hr
      rw [hdts] at hr
      simpa using search_mem_allowed ranked 5 [DocType.sop] (by simp) r hr
    · intro c hc
      simpa using key [DocType.sop] hdts (by simp) c hc
  · intro hrole
    have hdts : allowedDocTypes user.role = some [DocType.sop, DocType.manual] := by
      rw [hrole]; rfl
    constructor
    · intro r hr
      rw [hdts] at hr
      simpa using search_mem_allowed ranked 5 [DocType.sop, DocType.manual] (by simp) r hr
    · intro c hc
      simpa using key [DocType.sop, DocType.manual] hdts (by simp) c hc
  · intro hrole
    rcases hrole with h | h <;> rw [show allowedDocTypes user.role = none from by rw [h]; rfl] <;> rfl

/-- Witness for C1: a technician chat over a concrete SOP-only ranking cites
only sop documents. -/
theorem C1_witness :
    demoTech.role = Role.technician
    ∧ ∀ c ∈ (chat demoDB demoTech { message := "q", session_id := none }
        [(demoSopEntry, 1)] (some "a")).sources, c.doc_type = DocType.sop := by
  have hcons : ∀ r ∈ [(demoSopEntry, (1 : ℚ))], ∀ rec,
      findDoc demoDB.documents r.1.doc_id = some rec → rec.doc_type = r.1.doc_type := by
    intro r hr rec hrec
    rw [List.mem_singleton] at hr
    subst hr
    rw [show findDoc demoDB.documents (demoSopEntry, (1 : ℚ)).1.doc_id = some demoSopDoc
        from rfl] at hrec
    injection hrec with h
    rw [← h]; rfl
  exact ⟨rfl,
    ((C1_role_filtering demoDB demoTech { message := "q", session_id := none }
      [(demoSopEntry, 1)] (some "a") hcons).1 rfl).2⟩

/-- C5: when the LLM collaborator fails, the chat operation still completes:
the assistant text is the degraded message listing the citation titles and
stating that detailed generation failed, and that degraded turn is still
recorded together with its citations. -/
theorem C5_llm_failure_fallback (db : DB) (user : UserRec) (req : ChatRequest)
    (ranked : List (IndexEntry × ℚ)) :
    (chat db user req ranked none).response_text
      = "I found relevant information in the following documents: "
        ++ String.intercalate ", "
            ((chat db user req ranked none).sources.map (fun s => s.title))
        ++ ". However, I encountered an error generating a detailed response. Please try again."
    ∧ ∃ u a, (chat db user req ranked none).db.chat_messages = db.chat_messages ++ [u, a]
        ∧ a.role = "assistant"
        ∧ a.content = (chat db user req ranked none).response_text
        ∧ a.sources = some ((chat db user req ranked none).sources) := by
  constructor
  · rfl
  · cases ht : truthyId req.session_id
    · rw [chat_unfold_fresh db user req ranked none ht]
      exact ⟨_, _, rfl, rfl, rfl, rfl⟩
    · rw [chat_unfold_existing db user req ranked none ht]
      exact ⟨_, _, rfl, rfl, rfl, rfl⟩

theorem removeFirstSession_no_id (sid : String) :
    ∀ l : List ChatSessionRec, (l.map (fun s => s.id)).Nodup →
      ∀ s2 ∈ removeFirstSession sid l, ¬ s2.id = sid := by
  intro l
  induction l with
  | nil => intro _ s2 hs2; simp [removeFirstSession] at hs2
  | cons s rest ih =>
    intro hnd s2 hs2
    rw [List.map_cons, List.nodup_cons] at hnd
    simp only [removeFirstSession] at hs2
    by_cases h : s.id == sid
    · rw [if_pos h] at hs2
      have hsid : s.id = sid := by simpa using h
      intro heq
      have hmem : s2.id ∈ rest.map (fun t => t.id) := List.mem_map_of_mem _ hs2
      rw [heq, ← hsid] at hmem
      exact hnd.1 hmem
    · rw [if_neg h] at hs2
      rcases List.mem_cons.mp hs2 with rfl | hmem
      · simpa using h
      · exact ih hnd.2 s2 hmem

/-- C6: reading or deleting a session that does not exist or belongs to a
different user fails with the not-found error (never a forbidden error), so
non-owners cannot distinguish the two cases; for the owner, delete removes
all the session messages and the session itself while keeping unrelated
messages. -/
theorem C6_session_not_found_and_delete (db : DB) (user : UserRec) (sid : String) :
    ((∀ s ∈ db.chat_sessions, s.id = sid → ¬ s.user_id = user.id) →
      get_session_messages db user sid = Except.error (ApiError.notFound "Session not found")
      ∧ delete_session db user sid = Except.error (ApiError.notFound "Session not found"))
    ∧ (∀ e, get_session_messages db user sid = Except.error e →
        e = ApiError.notFound "Session not found")
    ∧ (∀ e, delete_session db user sid = Except.error e →
        e = ApiError.notFound "Session not found")
    ∧ (∀ s ∈ db.chat_sessions, s.id = sid → s.user_id = user.id →
        (db.chat_sessions.map (fun t => t.id)).Nodup →
        ∃ db2, delete_session db user sid = Except.ok db2
          ∧ (∀ m ∈ db2.chat_messages, ¬ m.session_id = sid)
          ∧ (∀ t ∈ db2.chat_sessions, ¬ t.id = sid)
          ∧ (∀ m ∈ db.chat_messages, ¬ m.session_id = sid → m ∈ db2.chat_messages)) := by
  refine ⟨?_, ?_, ?_, ?_⟩
  · intro hno
    have hfind : db.chat_sessions.find? (fun s => s.id == sid && s.user_id == user.id)
        = none := by
      rw [List.find?_eq_none]
      intro s hs
      simp only [Bool.and_eq_true, beq_iff_eq, not_and]
      exact fun h1 => hno s hs h1
    constructor
    · rw [get_session_messages, hfind]
    · rw [delete_session, hfind]
  · intro e he
    rcases hf : db.chat_sessions.find? (fun s => s.id == sid && s.user_id == user.id)
      with _ | s0
    · rw [get_session_messages, hf] at he
      injection he with h
      exact h.symm
    · rw [get_session_messages, hf] at he
      cases he
  · intro e he
    rcases hf : db.chat_sessions.find? (fun s => s.id == sid && s.user_id == user.id)
      with _ | s0
    · rw [delete_session, hf] at he
      injection he with h
      exact h.symm
    · rw [delete_session, hf] at he
      cases he
  · intro s hs hsid huid hnd
    have hsome : (db.chat_sessions.find?
        (fun s => s.id == sid && s.user_id == user.id)).isSome := by
      rw [List.find?_isSome]
      exact ⟨s, hs, by simp [hsid, huid]⟩
    obtain ⟨s0, hs0⟩ := Option.isSome_iff_exists.mp hsome
    refine ⟨_, by rw [delete_session, hs0], ?_, ?_, ?_⟩
    · intro m hm
      have := List.of_mem_filter hm
      simpa using this
    · exact removeFirstSession_no_id sid db.chat_sessions hnd
    · intro m hm hne
      exact List.mem_filter.mpr ⟨hm, by simpa using hne⟩

/-- Witness for C6: the owner deletes a concrete session; a non-owner read of
the same session fails as not found. -/
theorem C6_witness :
    (demoSession ∈ demoSessionDB.chat_sessions ∧ demoSession.user_id = demoTech.id)
    ∧ (∃ db2, delete_session demoSessionDB demoTech "sess-1" = Except.ok db2
        ∧ ∀ m ∈ db2.chat_messages, ¬ m.session_id = "sess-1")
    ∧ get_session_messages demoSessionDB demoEngineer "sess-1"
        = Except.error (ApiError.notFound "Session not found") := by
  refine ⟨⟨by simp [demoSessionDB], rfl⟩, ?_, ?_⟩
  · obtain ⟨db2, h1, h2, _, _⟩ :=
      (C6_session_not_found_and_delete demoSessionDB demoTech "sess-1").2.2.2 demoSession
        (by simp [demoSessionDB]) rfl rfl (by decide)
    exact ⟨db2, h1, h2⟩
  · exact ((C6_session_not_found_and_delete demoSessionDB demoEngineer "sess-1").1
      (by decide)).1

theorem mkEntries_doc_id (doc_id title : String) (doc_type : DocType) :
    ∀ (chunks : List String) (i : Nat),
      ∀ e ∈ mkEntries doc_id title doc_type i chunks, e.doc_id = doc_id := by
  intro chunks
  induction chunks with
  | nil => intro i e he; simp [mkEntries] at he
  | cons t ts ih =>
    intro i e he
    rcases List.mem_cons.mp he with rfl | hmem
    · rfl
    · exact ih (i + 1) e hmem

theorem mkEntries_length (doc_id title : String) (doc_type : DocType) :
    ∀ (chunks : List String) (i : Nat),
      (mkEntries doc_id title doc_type i chunks).length = chunks.length := by
  intro chunks
  induction chunks with
  | nil => intro i; rfl
  | cons t ts ih => intro i; simp [mkEntries, ih]

theorem upload_shape (db : DB) (user : UserRec) (args : UploadArgs)
    (split : String → List String) :
    ((∃ e, (upload_document db user args split).1 = Except.error e)
      ∧ (upload_document db user args split).2.documents = db.documents)
    ∨ (∃ text,
        args.extract = ExtractOutcome.success text
        ∧ args.saveOk = true
        ∧ (upload_document db user args split).1 = Except.ok
            { id := genId db.nextId
              title := if args.title == "" then stem args.filename else args.title
              description := args.description
              doc_type := args.doc_type
              filename := args.filename
              uploaded_by := user.id
              created_at := db.clock
              chunk_count := (split text).length
              file_size := args.content_size }
        ∧ (upload_document db user args split).2.documents = db.documents ++
            [{ id := genId db.nextId
               title := if args.title == "" then stem args.filename else args.title
               description := args.description
               doc_type := args.doc_type
               filename := args.filename
               uploaded_by := user.id
               created_at := db.clock
               chunk_count := (split text).length
               file_size := args.content_size }]
        ∧ (upload_document db user args split).2.index
            = db.index ++ mkEntries (genId db.nextId)
                (if args.title == "" then stem args.filename else args.title)
                args.doc_type 0 (split text)) := by
  rcases hcp : check_permission user "upload_docs" with e0 | u0
  · left
    exact ⟨⟨e0, by simp [upload_document, hcp]⟩, by simp [upload_document, hcp]⟩
  · by_cases hext : args.ext = ".pdf" ∨ args.ext = ".docx" ∨ args.ext = ".txt"
    · rcases hx : args.extract with _ | text
      · left
        rcases hext with h | h | h <;>
          exact ⟨⟨ApiError.badRequest "Could not extract text from file",
            by simp [upload_document, hcp, h, hx]⟩,
            by simp [upload_document, hcp, h, hx]⟩
      · by_cases hempty : strippedEmpty text = true
        · left
          rcases hext with h | h | h <;>
            exact ⟨⟨ApiError.badRequest "No text content found in file",
              by simp [upload_document, hcp, h, hx, hempty]⟩,
              by simp [upload_document, hcp, h, hx, hempty]⟩
        · by_cases hsave : args.saveOk = true
          · by_cases hwrite : args.fileWriteOk = true
            · right
              refine ⟨text, rfl, hsave, ?_, ?_, ?_⟩ <;>
                rcases hext with h | h | h <;>
                  simp [upload_document, add_document, hcp, h, hx, hempty, hsave, hwrite]
            · left
              have hw2 : args.fileWriteOk = false := by
                cases hb : args.fileWriteOk
                · rfl
                · exact absurd hb hwrite
              rcases hext with h | h | h <;>
                exact ⟨⟨ApiError.internal "file write failed",
                  by simp [upload_document, add_document, hcp, h, hx, hempty, hsave, hw2]⟩,
                  by simp [upload_document, add_document, hcp, h, hx, hempty, hsave, hw2]⟩
          · have hs2 : args.saveOk = false := by
              cases hb : args.saveOk
              · rfl
              · exact absurd hb hsave
            left
            rcases hext with h | h | h <;>
              exact ⟨⟨ApiError.internal "FAISS save failed",
                by simp [upload_document, add_document, hcp, h, hx, hempty, hs2]⟩,
                by simp [upload_document, add_document, hcp, h, hx, hempty, hs2]⟩
    · left
      push_neg at hext
      exact ⟨⟨ApiError.badRequest "File type not supported",
        by simp [upload_document, hcp, hext.1, hext.2.1, hext.2.2]⟩,
        by simp [upload_document, hcp, hext.1, hext.2.1, hext.2.2]⟩

/-- C2: upload is atomic with respect to failure.  Extraction failure or
whitespace-only extracted text rejects the upload with the whole state
unchanged (in particular before any index mutation); a failing durable index
save makes the upload fail; and whenever the upload fails for any reason the
document record is not persisted, while a successful upload persists exactly
one record whose chunks are all present in the index. -/
theorem C2_upload_atomicity (db : DB) (user : UserRec) (args : UploadArgs)
    (split : String → List String) :
    (args.extract = ExtractOutcome.failure →
      (∃ e, (upload_document db user args split).1 = Except.error e)
      ∧ (upload_document db user args split).2 = db)
    ∧ (∀ t, args.extract = ExtractOutcome.success t → strippedEmpty t = true →
      (∃ e, (upload_document db user args split).1 = Except.error e)
      ∧ (upload_document db user args split).2 = db)
    ∧ (args.saveOk = false →
      ∃ e, (upload_document db user args split).1 = Except.error e)
    ∧ (∀ e, (upload_document db user args split).1 = Except.error e →
      (upload_document db user args split).2.documents = db.documents)
    ∧ (∀ rec, (upload_document db user args split).1 = Except.ok rec →
      (upload_document db user args split).2.documents = db.documents ++ [rec]
      ∧ ((∀ en ∈ db.index, ¬ en.doc_id = rec.id) →
        ((upload_document db user args split).2.index.filter
          (fun en => en.doc_id == rec.id)).length = rec.chunk_count)) := by
  refine ⟨?_, ?_, ?_, ?_, ?_⟩
  · intro hx
    rcases hcp : check_permission user "upload_docs" with e0 | u0
    · exact ⟨⟨e0, by simp [upload_document, hcp]⟩, by simp [upload_document, hcp]⟩
    · by_cases hext : args.ext = ".pdf" ∨ args.ext = ".docx" ∨ args.ext = ".txt"
      · rcases hext with h | h | h <;>
          exact ⟨⟨ApiError.badRequest "Could not extract text from file",
            by simp [upload_document, hcp, h, hx]⟩,
            by simp [upload_document, hcp, h, hx]⟩
      · push_neg at hext
        exact ⟨⟨ApiError.badRequest "File type not supported",
          by simp [upload_document, hcp, hext.1, hext.2.1, hext.2.2]⟩,
          by simp [upload_document, hcp, hext.1, hext.2.1, hext.2.2]⟩
  · intro t hx hempty
    rcases hcp : check_permission user "upload_docs" with e0 | u0
    · exact ⟨⟨e0, by simp [upload_document, hcp]⟩, by simp [upload_document, hcp]⟩
    · by_cases hext : args.ext = ".pdf" ∨ args.ext = ".docx" ∨ args.ext = ".txt"
      · rcases hext with h | h | h <;>
          exact ⟨⟨ApiError.badRequest "No text content found in file",
            by simp [upload_document, hcp, h, hx, hempty]⟩,
            by simp [upload_document, hcp, h, hx, hempty]⟩
      · push_neg at hext
        exact ⟨⟨ApiError.badRequest "File type not supported",
          by simp [upload_document, hcp, hext.1, hext.2.1, hext.2.2]⟩,
          by simp [upload_document, hcp, hext.1, hext.2.1, hext.2.2]⟩
  · intro hsave
    rcases upload_shape db user args split with ⟨⟨e, he⟩, _⟩ | ⟨text, _, hs, _⟩
    · exact ⟨e, he⟩
    · rw [hsave] at hs
      cases hs
  · intro e he
    rcases upload_shape db user args split with ⟨_, hdocs⟩ | ⟨text, _, _, hok, _⟩
    · exact hdocs
    · rw [hok] at he
      cases he
  · intro rec hok
    rcases upload_shape db user args split with ⟨⟨e, he⟩, _⟩ | ⟨text, _, _, hok2, hdocs,
      hindex⟩
    · rw [hok] at he
      cases he
    · rw [hok] at hok2
      injection hok2 with h
      subst h
      refine ⟨hdocs, ?_⟩
      intro hfresh
      rw [hindex, List.filter_append]
      have h1 : db.index.filter (fun en => en.doc_id == genId db.nextId) = [] := by
        rw [List.filter_eq_nil_iff]
        intro en hen
        simpa using hfresh en hen
      have h2 : (mkEntries (genId db.nextId)
            (if args.title == "" then stem args.filename else args.title)
            args.doc_type 0 (split text)).filter (fun en => en.doc_id == genId db.nextId)
          = mkEntries (genId db.nextId)
            (if args.title == "" then stem args.filename else args.title)
            args.doc_type 0 (split text) := by
        rw [List.filter_eq_self]
        intro en hen
        simp [mkEntries_doc_id (genId db.nextId)
          (if args.title == "" then stem args.filename else args.title)
          args.doc_type (split text) 0 en hen]
      rw [h1, h2, List.nil_append, mkEntries_length]

/-- Witness for C2: a failing durable save on a concrete upload yields an
error. -/
theorem C2_witness :
    ({ demoUploadArgs with saveOk := false } : UploadArgs).saveOk = false
    ∧ ∃ e, (upload_document demoDB demoEngineer { demoUploadArgs with saveOk := false }
        demoSplit).1 = Except.error e :=
  ⟨rfl, (C2_upload_atomicity demoDB demoEngineer { demoUploadArgs with saveOk := false }
    demoSplit).2.2.1 rfl⟩

theorem genId_ne_empty (n : Nat) : ¬ genId n = "" := by
  intro h
  have hlen : (genId n).length = 0 := by rw [h]; rfl
  rw [genId, String.length_append] at hlen
  rw [show ("uuid-" : String).length = 5 from rfl] at hlen
  omega

theorem truthyId_of_ne (sid : String) (h : ¬ sid = "") : truthyId (some sid) = true := by
  simp [truthyId, h]

theorem updateSessionFirst_not_found (sid : String) (ts : Nat) :
    ∀ l : List ChatSessionRec, (∀ s ∈ l, ¬ s.id = sid) →
      updateSessionFirst sid ts l = l := by
  intro l
  induction l with
  | nil => intro _; rfl
  | cons x rest ih =>
    intro h
    have hx : ¬ (x.id == sid) = true := by
      simpa using h x (List.mem_cons_self x rest)
    simp only [updateSessionFirst, if_neg hx]
    rw [ih (fun s hs => h s (List.mem_cons_of_mem x hs))]

theorem updateSessionFirst_append_left (sid : String) (ts : Nat)
    (l1 l2 : List ChatSessionRec) (h : ∀ s ∈ l1, ¬ s.id = sid) :
    updateSessionFirst sid ts (l1 ++ l2) = l1 ++ updateSessionFirst sid ts l2 := by
  induction l1 with
  | nil => simp
  | cons x rest ih =>
    have hx : ¬ (x.id == sid) = true := by
      simpa using h x (List.mem_cons_self x rest)
    simp only [List.cons_append, updateSessionFirst, if_neg hx, List.append_eq]
    rw [ih (fun s hs => h s (List.mem_cons_of_mem x hs))]

theorem find?_append_none {α : Type} (p : α → Bool) (l1 l2 : List α)
    (h : ∀ x ∈ l1, ¬ p x = true) : (l1 ++ l2).find? p = l2.find? p := by
  rw [List.find?_append, List.find?_eq_none.mpr h]
  rfl

theorem updateSessionFirst_find (sid : String) (ts : Nat) :
    ∀ l : List ChatSessionRec, (l.map (fun t => t.id)).Nodup →
      ∀ s ∈ l, s.id = sid →
      (updateSessionFirst sid ts l).find? (fun t => t.id == sid)
        = some { s with updated_at := ts, message_count := s.message_count + 2 } := by
  intro l
  induction l with
  | nil => intro _ s hs; simp at hs
  | cons x rest ih =>
    intro hnd s hs hsid
    rw [List.map_cons, List.nodup_cons] at hnd
    by_cases hx : (x.id == sid) = true
    · have hxid : x.id = sid := by simpa using hx
      have hsx : s = x := by
        rcases List.mem_cons.mp hs with rfl | hmem
        · rfl
        · have hmemid : s.id ∈ rest.map (fun t => t.id) := List.mem_map_of_mem _ hmem
          rw [hsid, ← hxid] at hmemid
          exact absurd hmemid hnd.1
      subst hsx
      simp only [updateSessionFirst, if_pos hx]
      exact List.find?_cons_of_pos _ (by simpa using hsid)
    · have hsmem : s ∈ rest := by
        rcases List.mem_cons.mp hs with rfl | hmem
        · exact absurd hsid (by simpa using hx)
        · exact hmem
      simp only [updateSessionFirst, if_neg hx]
      rw [List.find?_cons_of_neg (updateSessionFirst sid ts rest) (by simpa using hx)]
      exact ih hnd.2 s hsmem hsid

theorem sortByTs_of_sorted :
    ∀ l : List ChatMessageRec,
      l.Pairwise (fun a b => a.timestamp ≤ b.timestamp) → sortByTs l = l := by
  intro l
  induction l with
  | nil => intro _; rfl
  | cons x xs ih =>
    intro hp
    rw [List.pairwise_cons] at hp
    show insertByTs x (sortByTs xs) = x :: xs
    rw [ih hp.2]
    cases xs with
    | nil => rfl
    | cons y ys =>
      show (if x.timestamp ≤ y.timestamp then x :: y :: ys else y :: insertByTs x ys)
        = x :: y :: ys
      rw [if_pos (hp.1 y (List.mem_cons_self y ys))]

/-- C10 counterexample: the empty string is a non-null session_id, yet the
chat endpoint treats it as absent: the returned session id is a freshly
generated one, a new session document is created, and no message is stored
under the supplied empty id. -/
theorem C10_counterexample :
    ((chat demoDB demoTech { message := "hi", session_id := some "" } [] (some "ok")).session_id
      ≠ "")
    ∧ (chat demoDB demoTech { message := "hi", session_id := some "" } []
        (some "ok")).db.chat_sessions.length = demoDB.chat_sessions.length + 1
    ∧ (∀ m ∈ (chat demoDB demoTech { message := "hi", session_id := some "" } []
        (some "ok")).db.chat_messages, ¬ m.session_id = "") := by
  refine ⟨?_, ?_, ?_⟩ <;> decide

/-- C10 (amended): for every chat request supplying a non-null and non-empty
session_id, no existence or ownership check is performed on that session: the
user and assistant messages are inserted under that session_id
unconditionally (for any state and requesting user), no session document is
created, and when no session with that id exists the updated_at and
message_count update matches nothing, leaving chat_sessions unchanged. -/
theorem C10_unvalidated_session_id (db : DB) (user : UserRec) (msg sid : String)
    (ranked : List (IndexEntry × ℚ)) (llm : Option String) (hne : ¬ sid = "") :
    (chat db user { message := msg, session_id := some sid } ranked llm).session_id = sid
    ∧ (∃ u a, (chat db user { message := msg, session_id := some sid } ranked
          llm).db.chat_messages = db.chat_messages ++ [u, a]
        ∧ u.session_id = sid ∧ a.session_id = sid)
    ∧ ((∀ s ∈ db.chat_sessions, ¬ s.id = sid) →
        (chat db user { message := msg, session_id := some sid } ranked
          llm).db.chat_sessions = db.chat_sessions) := by
  rw [chat_unfold_existing db user _ ranked llm (truthyId_of_ne sid hne)]
  refine ⟨rfl, ⟨_, _, rfl, rfl, rfl⟩, ?_⟩
  intro hno
  exact updateSessionFirst_not_found sid (db.clock + 2) db.chat_sessions hno

/-- Witness for C10 (amended) at a concrete unknown session id. -/
theorem C10_witness :
    (¬ "sess-9" = "")
    ∧ (chat demoDB demoTech { message := "x", session_id := some "sess-9" } []
        (some "y")).session_id = "sess-9" :=
  ⟨by decide,
   (C10_unvalidated_session_id demoDB demoTech "x" "sess-9" [] (some "y") (by decide)).1⟩

/-- C4: every chat exchange appends one user message then one assistant
message with a strictly later timestamp; when the request names an existing
session, that session's message_count grows by exactly 2 and its updated_at
advances; and in the two-message scenario on the returned session_id the
session ends with message_count 4 and the four messages are retrievable in
ascending timestamp order. -/
theorem C4_exchange_continuity :
    (∀ (db : DB) (user : UserRec) (req : ChatRequest) (ranked : List (IndexEntry × ℚ))
        (llm : Option String),
      ∃ u a, (chat db user req ranked llm).db.chat_messages = db.chat_messages ++ [u, a]
        ∧ u.role = "user" ∧ a.role = "assistant"
        ∧ u.content = req.message
        ∧ u.session_id = (chat db user req ranked llm).session_id
        ∧ a.session_id = (chat db user req ranked llm).session_id
        ∧ u.timestamp < a.timestamp)
    ∧ (∀ (db : DB) (user : UserRec) (msg sid : String) (ranked : List (IndexEntry × ℚ))
        (llm : Option String) (s : ChatSessionRec),
      (db.chat_sessions.map (fun t => t.id)).Nodup → s ∈ db.chat_sessions → s.id = sid →
      ¬ sid = "" →
      ∃ s2, (chat db user { message := msg, session_id := some sid } ranked
          llm).db.chat_sessions.find? (fun t => t.id == sid) = some s2
        ∧ s2.message_count = s.message_count + 2
        ∧ s2.updated_at = db.clock + 2
        ∧ (s.updated_at < db.clock → s.updated_at < s2.updated_at))
    ∧ (∀ (db : DB) (user : UserRec) (m1 m2 : String)
        (r1 r2 : List (IndexEntry × ℚ)) (l1 l2 : Option String),
      (∀ s ∈ db.chat_sessions, ¬ s.id = genId db.nextId) →
      (∀ m ∈ db.chat_messages, ¬ m.session_id = genId db.nextId) →
      ∃ s2, (chatSecond db user m1 m2 r1 r2 l1 l2).db.chat_sessions.find?
          (fun t => t.id == (chatFirst db user m1 r1 l1).session_id) = some s2
        ∧ s2.message_count = 4
        ∧ ∃ u1 a1 u2 a2,
            get_session_messages (chatSecond db user m1 m2 r1 r2 l1 l2).db user
              (chatFirst db user m1 r1 l1).session_id = Except.ok [u1, a1, u2, a2]
            ∧ u1.role = "user" ∧ a1.role = "assistant" ∧ u2.role = "user"
            ∧ a2.role = "assistant" ∧ u1.content = m1 ∧ u2.content = m2
            ∧ u1.timestamp < a1.timestamp ∧ a1.timestamp < u2.timestamp
            ∧ u2.timestamp < a2.timestamp) := by
  refine ⟨?_, ?_, ?_⟩
  · intro db user req ranked llm
    cases ht : truthyId req.session_id
    · rw [chat_unfold_fresh db user req ranked llm ht]
      exact ⟨_, _, rfl, rfl, rfl, rfl, rfl, rfl,
        by show db.clock + 2 < db.clock + 3; omega⟩
    · rw [chat_unfold_existing db user req ranked llm ht]
      exact ⟨_, _, rfl, rfl, rfl, rfl, rfl, rfl,
        by show db.clock < db.clock + 1; omega⟩
  · intro db user msg sid ranked llm s hnd hs hsid hne
    rw [chat_unfold_existing db user _ ranked llm (truthyId_of_ne sid hne)]
    refine ⟨{ s with updated_at := db.clock + 2, message_count := s.message_count + 2 },
      ?_, rfl, rfl, by intro h; show s.updated_at < db.clock + 2; omega⟩
    exact updateSessionFirst_find sid (db.clock + 2) db.chat_sessions hnd s hs hsid
  · intro db user m1 m2 r1 r2 l1 l2 hsfresh hmfresh
    have ho1 := chat_unfold_fresh db user { message := m1, session_id := none } r1 l1 rfl
    have hsid1 : (chatFirst db user m1 r1 l1).session_id = genId db.nextId := by
      rw [chatFirst, ho1]
    have hclock1 : (chatFirst db user m1 r1 l1).db.clock = db.clock + 5 := by
      rw [chatFirst, ho1]
    have hnext1 : (chatFirst db user m1 r1 l1).db.nextId = db.nextId + 4 := by
      rw [chatFirst, ho1]
    have hsess1 : (chatFirst db user m1 r1 l1).db.chat_sessions
        = db.chat_sessions ++
          [{ id := genId db.nextId, user_id := user.id, title := sessionTitle m1,
             created_at := db.clock, updated_at := db.clock + 4, message_count := 2 }] := by
      rw [chatFirst, ho1]
      show updateSessionFirst (genId db.nextId) (db.clock + 4)
          (db.chat_sessions ++
            [{ id := genId db.nextId, user_id := user.id, title := sessionTitle m1,
               created_at := db.clock, updated_at := db.clock + 1, message_count := 0 }])
        = _
      rw [updateSessionFirst_append_left _ _ _ _ hsfresh]
      simp [updateSessionFirst]
    have hmsg1 : (chatFirst db user m1 r1 l1).db.chat_messages
        = db.chat_messages ++
          [{ id := genId (db.nextId + 1), session_id := genId db.nextId, role := "user",
             content := m1, sources := none, timestamp := db.clock + 2 },
           { id := genId (db.nextId + 3), session_id := genId db.nextId,
             role := "assistant", content := chatText l1 (chatSources db user r1),
             sources := some (chatSources db user r1), timestamp := db.clock + 3 }] := by
      rw [chatFirst, ho1]
    have ht2 : truthyId (some (chatFirst db user m1 r1 l1).session_id) = true := by
      rw [hsid1]
      exact truthyId_of_ne _ (genId_ne_empty _)
    have ho2 := chat_unfold_existing (chatFirst db user m1 r1 l1).db user
      { message := m2, session_id := some (chatFirst db user m1 r1 l1).session_id }
      r2 l2 ht2
    have hgetd : (some (chatFirst db user m1 r1 l1).session_id).getD ""
        = genId db.nextId := by rw [hsid1]; rfl
    have hC2 : chatSecond db user m1 m2 r1 r2 l1 l2
        = chat (chatFirst db user m1 r1 l1).db user
            { message := m2, session_id := some (chatFirst db user m1 r1 l1).session_id }
            r2 l2 := rfl
    have hsess2 : (chatSecond db user m1 m2 r1 r2 l1 l2).db.chat_sessions
        = db.chat_sessions ++
          [{ id := genId db.nextId, user_id := user.id, title := sessionTitle m1,
             created_at := db.clock, updated_at := db.clock + 7, message_count := 4 }] := by
      rw [hC2, ho2]
      show updateSessionFirst ((some (chatFirst db user m1 r1 l1).session_id).getD "")
          ((chatFirst db user m1 r1 l1).db.clock + 2)
          (chatFirst db user m1 r1 l1).db.chat_sessions = _
      rw [hgetd, hclock1, hsess1]
      rw [updateSessionFirst_append_left _ _ _ _ hsfresh]
      simp [updateSessionFirst]
    have hmsg2 : (chatSecond db user m1 m2 r1 r2 l1 l2).db.chat_messages
        = db.chat_messages ++
          ([{ id := genId (db.nextId + 1), session_id := genId db.nextId, role := "user",
              content := m1, sources := none, timestamp := db.clock + 2 },
            { id := genId (db.nextId + 3), session_id := genId db.nextId,
              role := "assistant", content := chatText l1 (chatSources db user r1),
              sources := some (chatSources db user r1), timestamp := db.clock + 3 },
            { id := genId (db.nextId + 4), session_id := genId db.nextId, role := "user",
              content := m2, sources := none, timestamp := db.clock + 5 },
            { id := genId (db.nextId + 6), session_id := genId db.nextId,
              role := "assistant",
              content := chatText l2 (chatSources (chatFirst db user m1 r1 l1).db user r2),
              sources := some (chatSources (chatFirst db user m1 r1 l1).db user r2),
              timestamp := db.clock + 6 }]) := by
      rw [hC2, ho2]
      show (chatFirst db user m1 r1 l1).db.chat_messages ++
          [{ id := genId (chatFirst db user m1 r1 l1).db.nextId,
             session_id := (some (chatFirst db user m1 r1 l1).session_id).getD "",
             role := "user", content := m2, sources := none,
             timestamp := (chatFirst db user m1 r1 l1).db.clock },
           { id := genId ((chatFirst db user m1 r1 l1).db.nextId + 2),
             session_id := (some (chatFirst db user m1 r1 l1).session_id).getD "",
             role := "assistant",
             content := chatText l2 (chatSources (chatFirst db user m1 r1 l1).db user r2),
             sources := some (chatSources (chatFirst db user m1 r1 l1).db user r2),
             timestamp := (chatFirst db user m1 r1 l1).db.clock + 1 }] = _
      rw [hmsg1, hgetd, hclock1, hnext1, List.append_assoc]
      norm_num
    have hfind2 : (chatSecond db user m1 m2 r1 r2 l1 l2).db.chat_sessions.find?
        (fun s => s.id == genId db.nextId && s.user_id == user.id)
        = some { id := genId db.nextId, user_id := user.id, title := sessionTitle m1,
                 created_at := db.clock, updated_at := db.clock + 7, message_count := 4 } := by
      rw [hsess2]
      rw [find?_append_none _ _ _ (by
        intro x hx
        simp only [Bool.and_eq_true, beq_iff_eq, not_and]
        intro hxe
        exact absurd hxe (hsfresh x hx))]
      simp
    have hfilter : (chatSecond db user m1 m2 r1 r2 l1 l2).db.chat_messages.filter
        (fun m => m.session_id == genId db.nextId)
        = [{ id := genId (db.nextId + 1), session_id := genId db.nextId, role := "user",
             content := m1, sources := none, timestamp := db.clock + 2 },
           { id := genId (db.nextId + 3), session_id := genId db.nextId,
             role := "assistant", content := chatText l1 (chatSources db user r1),
             sources := some (chatSources db user r1), timestamp := db.clock + 3 },
           { id := genId (db.nextId + 4), session_id := genId db.nextId, role := "user",
             content := m2, sources := none, timestamp := db.clock + 5 },
           { id := genId (db.nextId + 6), session_id := genId db.nextId,
             role := "assistant",
             content := chatText l2 (chatSources (chatFirst db user m1 r1 l1).db user r2),
             sources := some (chatSources (chatFirst db user m1 r1 l1).db user r2),
             timestamp := db.clock + 6 }] := by
      rw [hmsg2, List.filter_append]
      rw [show db.chat_messages.filter (fun m => m.session_id == genId db.nextId)
          = [] from by
        rw [List.filter_eq_nil_iff]
        intro m hm
        simpa using hmfresh m hm]
      rw [List.nil_append]
      simp
    have hpair : List.Pairwise (fun a b : ChatMessageRec => a.timestamp ≤ b.timestamp)
        [{ id := genId (db.nextId + 1), session_id := genId db.nextId, role := "user",
           content := m1, sources := none, timestamp := db.clock + 2 },
         { id := genId (db.nextId + 3), session_id := genId db.nextId,
           role := "assistant", content := chatText l1 (chatSources db user r1),
           sources := some (chatSources db user r1), timestamp := db.clock + 3 },
         { id := genId (db.nextId + 4), session_id := genId db.nextId, role := "user",
           content := m2, sources := none, timestamp := db.clock + 5 },
         { id := genId (db.nextId + 6), session_id := genId db.nextId,
           role := "assistant",
           content := chatText l2 (chatSources (chatFirst db user m1 r1 l1).db user r2),
           sources := some (chatSources (chatFirst db user m1 r1 l1).db user r2),
           timestamp := db.clock + 6 }] := by
      simp [List.pairwise_cons]
    have hget : get_session_messages (chatSecond db user m1 m2 r1 r2 l1 l2).db user
        (chatFirst db user m1 r1 l1).session_id
        = Except.ok
          [{ id := genId (db.nextId + 1), session_id := genId db.nextId, role := "user",
             content := m1, sources := none, timestamp := db.clock + 2 },
           { id := genId (db.nextId + 3), session_id := genId db.nextId,
             role := "assistant", content := chatText l1 (chatSources db user r1),
             sources := some (chatSources db user r1), timestamp := db.clock + 3 },
           { id := genId (db.nextId + 4), session_id := genId db.nextId, role := "user",
             content := m2, sources := none, timestamp := db.clock + 5 },
           { id := genId (db.nextId + 6), session_id := genId db.nextId,
             role := "assistant",
             content := chatText l2 (chatSources (chatFirst db user m1 r1 l1).db user r2),
             sources := some (chatSources (chatFirst db user m1 r1 l1).db user r2),
             timestamp := db.clock + 6 }] := by
      rw [hsid1]
      simp only [get_session_messages, hfind2, hfilter]
      rw [sortByTs_of_sorted _ hpair]
    refine ⟨{ id := genId db.nextId, user_id := user.id, title := sessionTitle m1,
              created_at := db.clock, updated_at := db.clock + 7, message_count := 4 },
      ?_, rfl, ?_⟩
    · rw [hsess2, hsid1]
      rw [find?_append_none _ _ _ (by intro x hx; simpa using hsfresh x hx)]
      simp
    · exact ⟨_, _, _, _, hget, rfl, rfl, rfl, rfl, rfl, rfl,
        by show db.clock + 2 < db.clock + 3; omega,
        by show db.clock + 3 < db.clock + 5; omega,
        by show db.clock + 5 < db.clock + 6; omega⟩

/-- Witness for C4: two concrete exchanges on the returned session id end
with message_count 4. -/
theorem C4_witness :
    (∀ s ∈ demoDB.chat_sessions, ¬ s.id = genId demoDB.nextId)
    ∧ ∃ s2,
        (chatSecond demoDB demoTech "q1" "q2" [] [] (some "a1")
            (some "a2")).db.chat_sessions.find?
          (fun t => t.id == (chatFirst demoDB demoTech "q1" [] (some "a1")).session_id)
          = some s2
        ∧ s2.message_count = 4 := by
  obtain ⟨s2, h1, h2, _⟩ := C4_exchange_continuity.2.2 demoDB demoTech "q1" "q2" [] []
    (some "a1") (some "a2") (by simp [demoDB]) (by simp [demoDB])
  exact ⟨by simp [demoDB], s2, h1, h2⟩

end RAGineer
